import Mathlib

/-!
Shallow embedding of the qiwi-rs transport/decoding layer and the
cursor-based paginated fetch (src/qiwi/src/transport.rs and
src/qiwi/src/lib.rs), with theorems settling the spec claims.

Conventions of the embedding:
* Rust `Result<A, E>` becomes `Except E A`.
* JSON values are modelled by the inductive `Json`; serde's untagged
  enum decoding is modelled by trying the variant decoders in the
  declaration order of the Rust enum.
* External library behaviour that the repository only calls into
  (reqwest's `error_for_status`, serde_json's error message texts) is
  modelled by small concrete stand-ins noted at their definitions.
-/

/-- A model of JSON values (serde_json::Value). Object fields are kept
in document order; the repository's payloads have no duplicate keys. -/
inductive Json where
  | null : Json
  | bool (b : Bool) : Json
  | num (n : Int) : Json
  | str (s : String) : Json
  | arr (elems : List Json) : Json
  | obj (fields : List (String × Json)) : Json

/-- Field lookup in a JSON object's field list (first occurrence). -/
def Json.lookupField (fields : List (String × Json)) (key : String) : Option Json :=
  match fields with
  | [] => none
  | (k, v) :: rest => if k = key then some v else Json.lookupField rest key

namespace Transport

/-- transport.rs `enum Error`: the two transport-layer error kinds.
The boxed `source: StdError` is modelled by its display string; the
`Backtrace` payload carries no decision-relevant data and is omitted. -/
inductive Error where
  | NetworkError (source : String) : Error
  | ParseError (source : String) : Error
deriving DecidableEq, Repr

/-- transport.rs `enum Rsp<T>`: the untagged response envelope, variants
in Rust declaration order: `Error { errorCode }` first, then `OK(T)`. -/
inductive Rsp (T : Type) where
  | Error (error : String) : Rsp T
  | OK (v : T) : Rsp T
deriving DecidableEq, Repr

/-- serde decoding of the `Rsp::Error { #[serde(rename = "errorCode")] error: String }`
struct variant: the value must be an object whose `errorCode` field is a
string; unknown fields are ignored (serde default). -/
def decodeErrorVariant (j : Json) : Option String :=
  match j with
  | .obj fields =>
      match Json.lookupField fields "errorCode" with
      | some (.str s) => some s
      | _ => none
  | _ => none

/-- serde's `#[serde(untagged)]` decoding: try each variant decoder in
declaration order, returning the first that succeeds. -/
def untaggedFirstSome {T : Type} (variants : List (Json → Option T)) (j : Json) : Option T :=
  match variants with
  | [] => none
  | d :: rest =>
      match d j with
      | some v => some v
      | none => untaggedFirstSome rest j

/-- The error message serde_json reports when no variant of an untagged
enum matches (stand-in for the library's fixed text for `Rsp`). -/
def rspUntaggedErrMsg : String :=
  "data did not match any variant of untagged enum Rsp"

/-- The error message serde_json reports when the input text is not
well-formed JSON at all (stand-in for the library's syntax error text;
the exact wording is external, what matters is that it is derived from
the failure position, not a copy of the input text). -/
def jsonSyntaxErrMsg : String :=
  "expected value at line 1 column 1"

/-- Decoding a `Json` value into `Rsp T`, given the success type's
decoder `decodeT`. Variant order is the Rust declaration order of `Rsp`:
`Error` first, then `OK`. -/
def decodeRsp {T : Type} (decodeT : Json → Option T) (j : Json) : Except String (Rsp T) :=
  match untaggedFirstSome
      [fun j => (decodeErrorVariant j).map Rsp.Error,
       fun j => (decodeT j).map Rsp.OK] j with
  | some r => Except.ok r
  | none => Except.error rspUntaggedErrMsg

/-- `serde_json::from_str::<Rsp<T>>(text)`: parse the text to JSON
(`parseFn` abstracts the textual parsing step), then decode the untagged
enum. -/
def fromStrRsp {T : Type} (parseFn : String → Option Json) (decodeT : Json → Option T)
    (text : String) : Except String (Rsp T) :=
  match parseFn text with
  | none => Except.error jsonSyntaxErrMsg
  | some j => decodeRsp decodeT j

/-- reqwest `error_for_status_ref`: client (4xx) and server (5xx) status
codes yield an error, all others do not. -/
def statusIsError (status : Nat) : Bool :=
  decide (400 ≤ status ∧ status ≤ 599)

/-- Stand-in for the display string of reqwest's status error (the exact
text lives in the external library; it mentions the status, never the
response body). -/
def statusErrDisplay (status : Nat) : String :=
  "HTTP status error " ++ toString status

/-- transport.rs `RemoteCaller`: base address and optional bearer token
(the `http_client` handle carries no decision-relevant state). -/
structure RemoteCaller where
  addr : String
  bearer : Option String
deriving DecidableEq, Repr

/-- The request assembled by `RemoteCaller::call` before sending: URI,
query parameters, headers, optional JSON body. -/
structure BuiltRequest where
  uri : String
  query : List (String × String)
  headers : List (String × String)
  body : Option Json

/-- transport.rs `RemoteCaller::call`, request-building half: joins the
address and endpoint with `/`, attaches the query parameters and the
JSON content type, adds `Authorization: Bearer <token>` iff a bearer
token is configured, and the body iff one is given. -/
def RemoteCaller.buildRequest (rc : RemoteCaller) (endpoint : String)
    (params : List (String × String)) (body : Option Json) : BuiltRequest :=
  { uri := rc.addr ++ "/" ++ endpoint
    query := params
    headers :=
      [("Content-Type", "application/json")] ++
        (match rc.bearer with
         | some b => [("Authorization", "Bearer " ++ b)]
         | none => [])
    body := body }

/-- transport.rs `RemoteCaller::call`, response half: given the HTTP
status and the body text, return the body on success; on a 4xx/5xx
status return `Err` with a message holding both the status error and the
body text (`format!("Received error {} with data: {}", err, data)`). -/
def remoteCallOutcome (status : Nat) (bodyText : String) : Except String String :=
  if statusIsError status then
    Except.error ("Received error " ++ statusErrDisplay status ++ " with data: " ++ bodyText)
  else
    Except.ok bodyText

/-- transport.rs `CallerWrapper::call`: run the transport, tag a
transport failure as `NetworkError`, otherwise decode the text as
`Rsp<T>`, tagging a decode failure as `ParseError`. -/
def callerWrapperCall {T : Type} (parseFn : String → Option Json) (decodeT : Json → Option T)
    (transportResult : Except String String) : Except Error (Rsp T) :=
  match transportResult with
  | Except.error e => Except.error (Error.NetworkError e)
  | Except.ok text =>
      match fromStrRsp parseFn decodeT text with
      | Except.error pe => Except.error (Error.ParseError pe)
      | Except.ok r => Except.ok r

end Transport

namespace Qiwi

/-- lib.rs `enum Error`: the client-level error taxonomy. `TransportError`
wraps a transport-layer failure, `QiwiError` carries the server-supplied
error code as its description, `AuthorizationCallbackError` wraps a login
callback failure (unused by the core paths modelled here). -/
inductive Error where
  | TransportError (source : Transport.Error) : Error
  | QiwiError (description : String) : Error
  | AuthorizationCallbackError (source : String) : Error
deriving DecidableEq, Repr

/-- lib.rs `impl<T> Rsp<T> { into_result }`: `Error { error }` becomes
`Err(Error::QiwiError { description: error })`, `OK(v)` becomes `Ok(v)`. -/
def into_result {T : Type} (r : Transport.Rsp T) : Except Error T :=
  match r with
  | Transport.Rsp.Error error => Except.error (Error.QiwiError error)
  | Transport.Rsp.OK v => Except.ok v

/-- lib.rs `struct Client`: the wrapped transport and the user phone
(the phone is modelled by its string form). -/
structure Client where
  transport : Transport.RemoteCaller
  user : String

/-- lib.rs `Client::new`: builds a `RemoteCaller` with the fixed base
address and `bearer: Some(token.to_string())`. -/
def Client.new (phone : String) (token : String) : Client :=
  { transport := { addr := "https://edge.qiwi.com", bearer := some token }
    user := phone }

/-- One typed call as a client method performs it (`caller.call(...)
.context(TransportError)?.into_result()?`): transport outcome, then
envelope decode, then `into_result`; each failure is tagged with its
origin layer. -/
def typedCall {T : Type} (parseFn : String → Option Json) (decodeT : Json → Option T)
    (transportResult : Except String String) : Except Error T :=
  match Transport.callerWrapperCall parseFn decodeT transportResult with
  | Except.error te => Except.error (Error.TransportError te)
  | Except.ok rsp => into_result rsp

/-- Modelled from the spec: `PaymentHistoryData` is declared in
src/qiwi/src/models.rs, which is not present under src/; lib.rs shows
its use (`history.data`, `history.next_txn_date`, `history.next_txn_id`)
and the spec describes a History Page as an ordered sequence of entries
plus an optional next cursor `(next_date: string, next_id: u64)` whose
components may be independently absent. Entries are abstracted by the
type parameter `α`. -/
structure PaymentHistoryData (α : Type) where
  data : List α
  next_txn_date : Option String
  next_txn_id : Option Nat
deriving DecidableEq, Repr

/-- The query parameters one iteration of `payment_history` builds:
always `rows=50`; `nextTxnDate`/`nextTxnId` added iff the iteration
continues from a cursor (`next_txn.take()` is `Some`), threading the
cursor components unmodified (`to_string` on a `String` is the identity;
`to_string` on a `u64` is its decimal form). -/
def argsFor (cursor : Option (String × Nat)) : List (String × String) :=
  match cursor with
  | none => [("rows", "50")]
  | some (d, i) => [("rows", "50"), ("nextTxnDate", d), ("nextTxnId", toString i)]

/-- An element of the stream `payment_history` yields: an entry, or the
single terminal error of a failed page. -/
inductive StreamItem (α : Type) where
  | entry (e : α) : StreamItem α
  | err (e : Error) : StreamItem α
deriving DecidableEq, Repr

/-- The trace of one `payment_history` run: the calls issued (cursor
state and query parameters of each), the items yielded in order, and
whether the loop reached a terminal state (`break` or error) as opposed
to exhausting the scripted transport while still wanting another page. -/
structure HistoryRun (α : Type) where
  calls : List (Option (String × Nat) × List (String × String))
  items : List (StreamItem α)
  finished : Bool
deriving DecidableEq, Repr

/-- What the caller layer hands each iteration of the `payment_history`
loop: a transport-layer failure, or a decoded `Rsp<PaymentHistoryData>`. -/
def PageRsp (α : Type) : Type := Except Transport.Error (Transport.Rsp (PaymentHistoryData α))

/-- lib.rs `Client::payment_history`, loop body, run against a scripted
transport (`script` lists the outcome of each successive caller call).
Each iteration: build args from the current cursor, issue the call; a
transport failure is yielded as `TransportError` and ends the stream; a
decoded `Rsp::Error` is yielded via `into_result` as `QiwiError` and
ends the stream; on a decoded page, the next cursor is `Some` iff both
`next_txn_date` and `next_txn_id` are present, the page's entries are
yielded in order, and the loop breaks iff the next cursor is `None`. -/
def historyLoop {α : Type} (script : List (PageRsp α)) (cursor : Option (String × Nat)) :
    HistoryRun α :=
  match script with
  | [] => { calls := [], items := [], finished := false }
  | r :: rest =>
    let args := argsFor cursor
    match r with
    | Except.error te =>
        { calls := [(cursor, args)]
          items := [StreamItem.err (Error.TransportError te)]
          finished := true }
    | Except.ok (Transport.Rsp.Error code) =>
        { calls := [(cursor, args)]
          items := [StreamItem.err (Error.QiwiError code)]
          finished := true }
    | Except.ok (Transport.Rsp.OK history) =>
        let next_txn : Option (String × Nat) :=
          match history.next_txn_date with
          | some date =>
              match history.next_txn_id with
              | some id => some (date, id)
              | none => none
          | none => none
        let entries := history.data.map StreamItem.entry
        match next_txn with
        | none => { calls := [(cursor, args)], items := entries, finished := true }
        | some c =>
            let tail := historyLoop rest (some c)
            { calls := (cursor, args) :: tail.calls
              items := entries ++ tail.items
              finished := tail.finished }

/-- lib.rs `Client::payment_history`: the loop starts with
`next_txn = None` (first page carries no cursor parameters). -/
def payment_history {α : Type} (script : List (PageRsp α)) : HistoryRun α :=
  historyLoop script none

end Qiwi

/-- Whether `pat` is a leading segment of `s` (character lists). -/
def charsStartWith (pat s : List Char) : Bool :=
  match pat, s with
  | [], _ => true
  | _ :: _, [] => false
  | a :: pr, b :: sr => a == b && charsStartWith pr sr

/-- Whether `pat` occurs as a contiguous segment of `s` (character lists). -/
def charsContain (s pat : List Char) : Bool :=
  match s with
  | [] => charsStartWith pat []
  | b :: rest => charsStartWith pat (b :: rest) || charsContain rest pat

/-- Substring test used only in theorem statements: whether `pat` occurs
contiguously in `s`. -/
def strContains (s pat : String) : Bool :=
  charsContain s.data pat.data

/-- serde decoding of `serde_json::Value` as the success type `T`: every
JSON value matches (used to instantiate claims quantified over `T`). -/
def decodeValue : Json → Option Json :=
  fun j => some j

/-- A success-type decoder accepting exactly JSON objects, the shape of
the client's concrete payload structs. -/
def decodeObjOnly : Json → Option Unit :=
  fun j => match j with
  | Json.obj _ => some ()
  | _ => none

/-- The response body text used in the C1 analysis, the well-formed JSON
error envelope. -/
def c1Body : String := "\x7b\"errorCode\":\"X\"\x7d"

/-- A concrete parse function under which `c1Body` parses to the
error-envelope object (serde_json textual parsing at this input). -/
def c1Parse : String → Option Json :=
  fun s => if s = c1Body then some (Json.obj [("errorCode", Json.str "X")]) else none

/-- C1: the claim fails on the code. With HTTP status 400 and body
`\x7b"errorCode":"X"\x7d` — a well-formed JSON error envelope, as the first
conjunct shows by decoding the parsed body to `Failure("X")` directly —
the typed call reports a `NetworkError` wrapping the transport's message
string, not `Failure("X")`/`QiwiError("X")`: `RemoteCaller::call`
returns `Err` on a 4xx/5xx status and `CallerWrapper::call` maps any
transport `Err` to `NetworkError` without ever running the decoder. -/
theorem c1_http_failure_counterexample :
    Transport.decodeRsp decodeObjOnly (Json.obj [("errorCode", Json.str "X")])
      = Except.ok (Transport.Rsp.Error "X")
    ∧ Qiwi.typedCall c1Parse decodeObjOnly (Transport.remoteCallOutcome 400 c1Body)
      = Except.error (Qiwi.Error.TransportError (Transport.Error.NetworkError
          ("Received error " ++ Transport.statusErrDisplay 400 ++ " with data: " ++ c1Body)))
    ∧ Qiwi.typedCall c1Parse decodeObjOnly (Transport.remoteCallOutcome 400 c1Body)
      ≠ Except.error (Qiwi.Error.QiwiError "X") :=
  ⟨rfl, rfl, fun h => nomatch h⟩

/-- C1 amended: on a 4xx/5xx status the transport returns `Err` whose
message holds both the status error and the verbatim body text, and the
typed call surfaces it as `TransportError(NetworkError ...)` whatever
parse and decode functions are in place — the body text reaches the
error message, not the decoder layer. -/
theorem c1_http_failure_amended {T : Type} (parseFn : String → Option Json)
    (decodeT : Json → Option T) (status : Nat) (body : String)
    (h : Transport.statusIsError status = true) :
    Transport.remoteCallOutcome status body
      = Except.error
          ("Received error " ++ Transport.statusErrDisplay status ++ " with data: " ++ body)
    ∧ Qiwi.typedCall parseFn decodeT (Transport.remoteCallOutcome status body)
      = Except.error (Qiwi.Error.TransportError (Transport.Error.NetworkError
          ("Received error " ++ Transport.statusErrDisplay status ++ " with data: " ++ body))) := by
  have hb : Transport.remoteCallOutcome status body
      = Except.error
          ("Received error " ++ Transport.statusErrDisplay status ++ " with data: " ++ body) := by
    simp [Transport.remoteCallOutcome, h]
  exact ⟨hb, by simp [Qiwi.typedCall, Transport.callerWrapperCall, hb]⟩

/-- Witness instantiating `c1_http_failure_amended` at status 400 and
the `c1Body` error-envelope text. -/
theorem c1_http_failure_amended_witness :
    Transport.statusIsError 400 = true
    ∧ Qiwi.typedCall c1Parse decodeObjOnly (Transport.remoteCallOutcome 400 c1Body)
      = Except.error (Qiwi.Error.TransportError (Transport.Error.NetworkError
          ("Received error " ++ Transport.statusErrDisplay 400 ++ " with data: " ++ c1Body))) :=
  ⟨by decide, (c1_http_failure_amended c1Parse decodeObjOnly 400 c1Body (by decide)).2⟩

/-- C2: the claim fails on the code. With success type `T` =
`serde_json::Value`, whose decoder accepts every JSON value, the object
`\x7b"errorCode":"X"\x7d` matches the generic success shape (first
conjunct), yet decoding yields `Failure("X")`, because the untagged
`Rsp` declares its `Error` variant first and serde tries variants in
declaration order — the success type is not tried first as claimed. -/
theorem c2_decode_order_counterexample :
    decodeValue (Json.obj [("errorCode", Json.str "X")])
      = some (Json.obj [("errorCode", Json.str "X")])
    ∧ Transport.decodeRsp decodeValue (Json.obj [("errorCode", Json.str "X")])
      = Except.ok (Transport.Rsp.Error "X")
    ∧ Transport.decodeRsp decodeValue (Json.obj [("errorCode", Json.str "X")])
      ≠ Except.ok (Transport.Rsp.OK (Json.obj [("errorCode", Json.str "X")])) :=
  ⟨rfl, rfl, fun h => nomatch h⟩

/-- C2 amended: the envelope decoder tries the error shape
`\x7b errorCode: string \x7d` first and the generic success type only on
its failure: whenever the error shape matches, the result is
`Failure(code)` even if `T` also matches; the success decoder decides
the outcome exactly when the error shape does not match. -/
theorem c2_decode_order_amended {T : Type} (decodeT : Json → Option T) (j : Json) :
    (∀ code, Transport.decodeErrorVariant j = some code →
       Transport.decodeRsp decodeT j = Except.ok (Transport.Rsp.Error code))
    ∧ (Transport.decodeErrorVariant j = none → ∀ v, decodeT j = some v →
       Transport.decodeRsp decodeT j = Except.ok (Transport.Rsp.OK v)) := by
  constructor
  · intro code hc
    simp [Transport.decodeRsp, Transport.untaggedFirstSome, hc]
  · intro hn v hv
    simp [Transport.decodeRsp, Transport.untaggedFirstSome, hn, hv]

/-- Witness instantiating `c2_decode_order_amended` on the envelope
`\x7b"errorCode":"E"\x7d` with the always-matching success decoder. -/
theorem c2_decode_order_amended_witness :
    Transport.decodeErrorVariant (Json.obj [("errorCode", Json.str "E")]) = some "E"
    ∧ Transport.decodeRsp decodeValue (Json.obj [("errorCode", Json.str "E")])
      = Except.ok (Transport.Rsp.Error "E") :=
  ⟨rfl, (c2_decode_order_amended decodeValue (Json.obj [("errorCode", Json.str "E")])).1 "E" rfl⟩

/-- C6: `into_result` maps `OK(v)` to `Ok(v)` and `Error \x7b error: code \x7d`
to `Err(QiwiError \x7b description: code \x7d)`, the description being the
server-supplied error code string itself. -/
theorem c6_into_result_contract {T : Type} (v : T) (code : String) :
    Qiwi.into_result (Transport.Rsp.OK v) = Except.ok v
    ∧ Qiwi.into_result (T := T) (Transport.Rsp.Error code)
      = Except.error (Qiwi.Error.QiwiError code) :=
  ⟨rfl, rfl⟩

/-- The response text used in the C7 analysis: well-formed JSON (a bare
string) matching neither the success shape nor the error envelope. -/
def c7Raw : String := "\"zzz\""

/-- A concrete parse function under which `c7Raw` parses to the JSON
string `"zzz"` (serde_json textual parsing at this input). -/
def c7Parse : String → Option Json :=
  fun s => if s = c7Raw then some (Json.str "zzz") else none

/-- C7: the claim fails on the code. When the text decodes as neither
shape, the call does fail with a `ParseError`, but the error's only
payload is serde's untagged-mismatch message: the verbatim raw text is
not carried — the raw text's distinctive content `zzz` occurs in the raw
text but nowhere in what the `ParseError` carries (`from_parse_error`
boxes only the serde error; the raw text is merely trace-logged). -/
theorem c7_parse_error_counterexample :
    Qiwi.typedCall c7Parse decodeObjOnly (Except.ok c7Raw)
      = Except.error (Qiwi.Error.TransportError
          (Transport.Error.ParseError Transport.rspUntaggedErrMsg))
    ∧ strContains c7Raw "zzz" = true
    ∧ strContains Transport.rspUntaggedErrMsg "zzz" = false :=
  ⟨rfl, by decide, by decide⟩

/-- C7 amended: when the response text parses to JSON matching neither
the error envelope nor the success type, the call fails with
`TransportError(ParseError ...)` carrying the underlying decode failure
(serde's untagged-mismatch message) — a value independent of the raw
text, which is therefore not part of the error. -/
theorem c7_parse_error_amended {T : Type} (parseFn : String → Option Json)
    (decodeT : Json → Option T) (text : String) (j : Json)
    (hp : parseFn text = some j)
    (he : Transport.decodeErrorVariant j = none)
    (ht : decodeT j = none) :
    Qiwi.typedCall parseFn decodeT (Except.ok text)
      = Except.error (Qiwi.Error.TransportError
          (Transport.Error.ParseError Transport.rspUntaggedErrMsg)) := by
  simp [Qiwi.typedCall, Transport.callerWrapperCall, Transport.fromStrRsp, hp,
    Transport.decodeRsp, Transport.untaggedFirstSome, he, ht]

/-- Witness instantiating `c7_parse_error_amended` at the `c7Raw` text. -/
theorem c7_parse_error_amended_witness :
    c7Parse c7Raw = some (Json.str "zzz")
    ∧ Transport.decodeErrorVariant (Json.str "zzz") = none
    ∧ decodeObjOnly (Json.str "zzz") = none
    ∧ Qiwi.typedCall c7Parse decodeObjOnly (Except.ok c7Raw)
      = Except.error (Qiwi.Error.TransportError
          (Transport.Error.ParseError Transport.rspUntaggedErrMsg)) :=
  ⟨rfl, rfl, rfl,
    c7_parse_error_amended c7Parse decodeObjOnly c7Raw (Json.str "zzz") rfl rfl rfl⟩

/-- C3: with a scripted transport returning page 1 with entries `p1` and
cursor `(d1, 7)` and page 2 with entries `p2` and no cursor, the fetch
issues exactly the two recorded calls — the first with cursor state
`None`, the second carrying `nextTxnDate=d1` and `nextTxnId="7"` (the
cursor threaded unmodified, the id in decimal form) — and the emitted
items are page 1's entries followed by page 2's entries in order. -/
theorem c3_cursor_threading {α : Type} (d1 : String) (p1 p2 : List α) :
    Qiwi.payment_history
        [Except.ok (Transport.Rsp.OK ⟨p1, some d1, some 7⟩),
         Except.ok (Transport.Rsp.OK ⟨p2, none, none⟩)]
      = { calls := [(none, [("rows", "50")]),
                    (some (d1, 7), [("rows", "50"), ("nextTxnDate", d1), ("nextTxnId", "7")])]
          items := (p1 ++ p2).map Qiwi.StreamItem.entry
          finished := true } := by
  have h7 : toString (7 : Nat) = "7" := rfl
  simp [Qiwi.payment_history, Qiwi.historyLoop, Qiwi.argsFor, h7]

/-- C4: a decoded page from which either cursor component is absent is
terminal whatever the other component holds: the run records exactly the
one call that produced this page, yields its entries, and finishes —
however many further responses the transport could still serve. -/
theorem c4_missing_cursor_component_terminal {α : Type} (h : Qiwi.PaymentHistoryData α)
    (rest : List (Qiwi.PageRsp α)) (cursor : Option (String × Nat))
    (hm : h.next_txn_date = none ∨ h.next_txn_id = none) :
    Qiwi.historyLoop (Except.ok (Transport.Rsp.OK h) :: rest) cursor
      = { calls := [(cursor, Qiwi.argsFor cursor)]
          items := h.data.map Qiwi.StreamItem.entry
          finished := true } := by
  obtain ⟨data, nd, ni⟩ := h
  rcases hm with hm | hm
  · simp only [Qiwi.PaymentHistoryData.next_txn_date] at hm
    subst hm
    simp [Qiwi.historyLoop]
  · simp only [Qiwi.PaymentHistoryData.next_txn_id] at hm
    subst hm
    cases nd <;> simp [Qiwi.historyLoop]

/-- Witness instantiating `c4_missing_cursor_component_terminal` on a
page whose `next_txn_date` is present but whose `next_txn_id` is absent,
with a further scripted response behind it that is never requested. -/
theorem c4_missing_cursor_component_terminal_witness :
    ((⟨[1, 2], some "d", none⟩ : Qiwi.PaymentHistoryData Nat).next_txn_date = none
      ∨ (⟨[1, 2], some "d", none⟩ : Qiwi.PaymentHistoryData Nat).next_txn_id = none)
    ∧ Qiwi.historyLoop
        [Except.ok (Transport.Rsp.OK (⟨[1, 2], some "d", none⟩ : Qiwi.PaymentHistoryData Nat)),
         Except.error (Transport.Error.NetworkError "never requested")] none
      = { calls := [(none, Qiwi.argsFor none)]
          items := [Qiwi.StreamItem.entry 1, Qiwi.StreamItem.entry 2]
          finished := true } :=
  ⟨Or.inr rfl,
    c4_missing_cursor_component_terminal (⟨[1, 2], some "d", none⟩ : Qiwi.PaymentHistoryData Nat)
      [Except.error (Transport.Error.NetworkError "never requested")] none (Or.inr rfl)⟩

/-- C5: if page 1 succeeds with a complete cursor and the caller call for
page 2 fails, the run records exactly two calls (whatever the transport
could still serve — no third call), and the items are page 1's entries
followed by exactly one terminal error element wrapping the failure. -/
theorem c5_error_isolation {α : Type} (p1 : List α) (d : String) (i : Nat)
    (te : Transport.Error) (rest : List (Qiwi.PageRsp α)) :
    Qiwi.payment_history
        (Except.ok (Transport.Rsp.OK ⟨p1, some d, some i⟩) :: Except.error te :: rest)
      = { calls := [(none, Qiwi.argsFor none), (some (d, i), Qiwi.argsFor (some (d, i)))]
          items := p1.map Qiwi.StreamItem.entry
                     ++ [Qiwi.StreamItem.err (Qiwi.Error.TransportError te)]
          finished := true } := by
  simp [Qiwi.payment_history, Qiwi.historyLoop]

/-- Helper: every call the history loop records pairs its cursor state
with exactly the parameters `argsFor` builds from it, and the first
recorded call's cursor state is the loop's starting cursor. -/
theorem historyLoop_calls_shape {α : Type} (script : List (Qiwi.PageRsp α))
    (cursor : Option (String × Nat)) :
    (∀ p ∈ (Qiwi.historyLoop script cursor).calls, p.2 = Qiwi.argsFor p.1)
    ∧ (∀ p rest, (Qiwi.historyLoop script cursor).calls = p :: rest → p.1 = cursor) := by
  induction script generalizing cursor with
  | nil =>
    constructor
    · intro p hp
      simp [Qiwi.historyLoop] at hp
    · intro p rest heq
      simp [Qiwi.historyLoop] at heq
  | cons r tailScript ih =>
    cases r with
    | error te =>
      constructor
      · intro p hp
        simp [Qiwi.historyLoop] at hp
        subst hp
        rfl
      · intro p rest heq
        simp [Qiwi.historyLoop] at heq
        exact (congrArg Prod.fst heq.1).symm
    | ok rsp =>
      cases rsp with
      | Error code =>
        constructor
        · intro p hp
          simp [Qiwi.historyLoop] at hp
          subst hp
          rfl
        · intro p rest heq
          simp [Qiwi.historyLoop] at heq
          exact (congrArg Prod.fst heq.1).symm
      | OK history =>
        obtain ⟨data, nd, ni⟩ := history
        cases nd with
        | none =>
          constructor
          · intro p hp
            simp [Qiwi.historyLoop] at hp
            subst hp
            rfl
          · intro p rest heq
            simp [Qiwi.historyLoop] at heq
            exact (congrArg Prod.fst heq.1).symm
        | some d =>
          cases ni with
          | none =>
            constructor
            · intro p hp
              simp [Qiwi.historyLoop] at hp
              subst hp
              rfl
            · intro p rest heq
              simp [Qiwi.historyLoop] at heq
              exact (congrArg Prod.fst heq.1).symm
          | some i =>
            constructor
            · intro p hp
              simp [Qiwi.historyLoop] at hp
              rcases hp with hp | hp
              · subst hp
                rfl
              · exact (ih (some (d, i))).1 p hp
            · intro p rest heq
              simp [Qiwi.historyLoop] at heq
              exact (congrArg Prod.fst heq.1).symm

/-- C8: in a run from the start state, every recorded call's parameters
are exactly those built from its cursor state: they always contain
`rows=50`, and they contain a `nextTxnDate` entry (likewise a
`nextTxnId` entry) if and only if the call continues from a cursor;
the first recorded call continues from no cursor. -/
theorem c8_fixed_rows_and_cursor_params {α : Type} (script : List (Qiwi.PageRsp α)) :
    (∀ c args, (c, args) ∈ (Qiwi.payment_history script).calls →
       args = Qiwi.argsFor c
       ∧ ("rows", "50") ∈ args
       ∧ ((∃ d, ("nextTxnDate", d) ∈ args) ↔ c ≠ none)
       ∧ ((∃ i, ("nextTxnId", i) ∈ args) ↔ c ≠ none))
    ∧ (∀ firstCall rest, (Qiwi.payment_history script).calls = firstCall :: rest →
       firstCall.1 = none) := by
  constructor
  · intro c args hmem
    have hshape := (historyLoop_calls_shape script none).1 (c, args) hmem
    simp only at hshape
    subst hshape
    refine ⟨rfl, ?_, ?_, ?_⟩
    · cases c with
      | none => simp [Qiwi.argsFor]
      | some cv =>
        obtain ⟨d0, i0⟩ := cv
        simp [Qiwi.argsFor]
    · cases c with
      | none => simp [Qiwi.argsFor]
      | some cv =>
        obtain ⟨d0, i0⟩ := cv
        simp [Qiwi.argsFor]
    · cases c with
      | none => simp [Qiwi.argsFor]
      | some cv =>
        obtain ⟨d0, i0⟩ := cv
        simp [Qiwi.argsFor]
  · exact (historyLoop_calls_shape script none).2

/-- The two-page script used to witness C8: page 1 with a complete
cursor, page 2 terminal. -/
def c8Script : List (Qiwi.PageRsp Nat) :=
  [Except.ok (Transport.Rsp.OK ⟨[5], some "d", some 3⟩),
   Except.ok (Transport.Rsp.OK ⟨[], none, none⟩)]

/-- Witness instantiating `c8_fixed_rows_and_cursor_params` on the
second call of the `c8Script` run (the call continuing from the cursor
`("d", 3)`). -/
theorem c8_fixed_rows_and_cursor_params_witness :
    (some ("d", 3), [("rows", "50"), ("nextTxnDate", "d"), ("nextTxnId", "3")])
      ∈ (Qiwi.payment_history c8Script).calls
    ∧ ("rows", "50") ∈ [("rows", "50"), ("nextTxnDate", "d"), ("nextTxnId", "3")]
    ∧ ((∃ d, ("nextTxnDate", d) ∈ [("rows", "50"), ("nextTxnDate", "d"), ("nextTxnId", "3")])
        ↔ (some ("d", 3) : Option (String × Nat)) ≠ none) := by
  have hmem : (some ("d", 3), [("rows", "50"), ("nextTxnDate", "d"), ("nextTxnId", "3")])
      ∈ (Qiwi.payment_history c8Script).calls := by decide
  have h := (c8_fixed_rows_and_cursor_params c8Script).1 (some ("d", 3))
    [("rows", "50"), ("nextTxnDate", "d"), ("nextTxnId", "3")] hmem
  exact ⟨hmem, h.2.1, h.2.2.1⟩

/-- Helper: over a script whose every response is a decoded page carrying
both cursor components, the history loop never reaches a terminal state
and consumes one scripted response per issued call, from any cursor. -/
theorem historyLoop_all_cursor_pages {α : Type} (script : List (Qiwi.PageRsp α))
    (hall : ∀ r ∈ script, ∃ h : Qiwi.PaymentHistoryData α,
       r = Except.ok (Transport.Rsp.OK h)
       ∧ (∃ d, h.next_txn_date = some d) ∧ (∃ i, h.next_txn_id = some i)) :
    ∀ cursor, (Qiwi.historyLoop script cursor).finished = false
      ∧ (Qiwi.historyLoop script cursor).calls.length = script.length := by
  induction script with
  | nil =>
    intro cursor
    constructor
    · rfl
    · rfl
  | cons r tailScript ih =>
    intro cursor
    obtain ⟨h, hr, ⟨d, hd⟩, ⟨i, hi⟩⟩ := hall r (List.mem_cons_self r tailScript)
    subst hr
    have ihh := ih (fun r hr => hall r (List.mem_cons_of_mem _ hr)) (some (d, i))
    constructor
    · simp [Qiwi.historyLoop, hd, hi, ihh.1]
    · simp [Qiwi.historyLoop, hd, hi, ihh.2]

/-- C9: error propagation apart, the only exit of the paginated fetch
loop is a page lacking a complete cursor: over a script of pages that
all carry both cursor components the run never finishes, however long
the script — each scripted page triggers exactly one further call; and a
page with an empty entry list but a complete cursor still hands control
to a further fetch of the remaining script. -/
theorem c9_no_terminal_exit_with_complete_cursors {α : Type}
    (script : List (Qiwi.PageRsp α))
    (hall : ∀ r ∈ script, ∃ h : Qiwi.PaymentHistoryData α,
       r = Except.ok (Transport.Rsp.OK h)
       ∧ (∃ d, h.next_txn_date = some d) ∧ (∃ i, h.next_txn_id = some i)) :
    (Qiwi.payment_history script).finished = false
    ∧ (Qiwi.payment_history script).calls.length = script.length
    ∧ (∀ (d : String) (i : Nat) (rest : List (Qiwi.PageRsp α))
         (cursor : Option (String × Nat)),
        (Qiwi.historyLoop
            (Except.ok (Transport.Rsp.OK ⟨[], some d, some i⟩) :: rest) cursor).calls
          = (cursor, Qiwi.argsFor cursor) :: (Qiwi.historyLoop rest (some (d, i))).calls) := by
  refine ⟨(historyLoop_all_cursor_pages script hall none).1,
    (historyLoop_all_cursor_pages script hall none).2, ?_⟩
  intro d i rest cursor
  simp [Qiwi.historyLoop]

/-- The all-cursor script used to witness C9: two pages, the first with
an empty entry list, both carrying complete cursors. -/
def c9Script : List (Qiwi.PageRsp Nat) :=
  [Except.ok (Transport.Rsp.OK ⟨[], some "d", some 1⟩),
   Except.ok (Transport.Rsp.OK ⟨[9], some "e", some 2⟩)]

/-- Witness instantiating `c9_no_terminal_exit_with_complete_cursors` on
`c9Script`: the run is unfinished after consuming both pages and issued
one call per page, the empty first page included. -/
theorem c9_no_terminal_exit_witness :
    (Qiwi.payment_history c9Script).finished = false
    ∧ (Qiwi.payment_history c9Script).calls.length = c9Script.length := by
  have hall : ∀ r ∈ c9Script, ∃ h : Qiwi.PaymentHistoryData Nat,
      r = Except.ok (Transport.Rsp.OK h)
      ∧ (∃ d, h.next_txn_date = some d) ∧ (∃ i, h.next_txn_id = some i) := by
    intro r hr
    rcases List.mem_cons.mp hr with h1 | h2
    · exact ⟨⟨[], some "d", some 1⟩, h1, ⟨"d", rfl⟩, ⟨1, rfl⟩⟩
    · rcases List.mem_cons.mp h2 with h3 | h4
      · exact ⟨⟨[9], some "e", some 2⟩, h3, ⟨"e", rfl⟩, ⟨2, rfl⟩⟩
      · exact absurd h4 (List.not_mem_nil r)
  exact ⟨(c9_no_terminal_exit_with_complete_cursors c9Script hall).1,
    (c9_no_terminal_exit_with_complete_cursors c9Script hall).2.1⟩

/-- C10: every client `Client::new` builds holds a transport whose
bearer field is `Some(token)`, and every request built through that
transport carries the `Authorization: Bearer <token>` header — its
header list is exactly the with-token branch's, so the no-token branch
contributes nothing for such clients. -/
theorem c10_client_new_bearer (phone token endpoint : String)
    (params : List (String × String)) (body : Option Json) :
    (Qiwi.Client.new phone token).transport.bearer = some token
    ∧ ("Authorization", "Bearer " ++ token)
        ∈ ((Qiwi.Client.new phone token).transport.buildRequest endpoint params body).headers
    ∧ ((Qiwi.Client.new phone token).transport.buildRequest endpoint params body).headers
        = [("Content-Type", "application/json"), ("Authorization", "Bearer " ++ token)] := by
  refine ⟨rfl, ?_, rfl⟩
  simp [Qiwi.Client.new, Transport.RemoteCaller.buildRequest]
